import Mathlib

/-!
Shallow embedding of the pdinew Palmer-index pipeline (src/pdinew.py) and
proofs about the claims on its specification.

Numeric cells are modelled by the type F: either a rational number or the
non-numeric junk value F.nan, mirroring the IEEE NaN values that the Python
code stores in its NaN-initialised pandas work arrays.  Comparisons against
F.nan are false and arithmetic propagates it, exactly as for IEEE floats in
Python.  Division by zero is also mapped to F.nan (floats would produce an
infinity; no development below depends on a zero divisor).  Real-number
arithmetic is modelled exactly over the rationals.
-/

attribute [local semireducible] Rat.add Rat.mul Rat.sub Rat.inv

inductive F where
  | nan : F
  | fin : ℚ → F
deriving DecidableEq

namespace F

def add : F → F → F
  | fin a, fin b => fin (a + b)
  | _, _ => nan

def mul : F → F → F
  | fin a, fin b => fin (a * b)
  | _, _ => nan

def sub : F → F → F
  | fin a, fin b => fin (a - b)
  | _, _ => nan

def div : F → F → F
  | fin a, fin b => if b = 0 then nan else fin (a / b)
  | _, _ => nan

instance : Add F := ⟨add⟩
instance : Mul F := ⟨mul⟩
instance : Sub F := ⟨sub⟩
instance : Div F := ⟨div⟩

/-- Strict less-than as Python evaluates it on floats: false when either
side is NaN. -/
def lt : F → F → Bool
  | fin a, fin b => decide (a < b)
  | _, _ => false

def le : F → F → Bool
  | fin a, fin b => decide (a ≤ b)
  | _, _ => false

def gt (a b : F) : Bool := lt b a

def ge (a b : F) : Bool := le b a

/-- Equality test as Python evaluates it on floats: false when either side
is NaN. -/
def beq : F → F → Bool
  | fin a, fin b => decide (a = b)
  | _, _ => false

/-- Python builtin min a b: returns b when b < a, else a (so NaN in the
first position is returned unchanged). -/
def pymin (a b : F) : F := if lt b a then b else a

/-- Python builtin max a b: returns b when b > a, else a. -/
def pymax (a b : F) : F := if gt b a then b else a

def fabs : F → F
  | fin a => fin |a|
  | nan => nan

end F

/-- Pointwise array update, modelling an assignment arr at index i. -/
def upd {α : Type} (f : Nat → α) (i : Nat) (v : α) : Nat → α :=
  fun n => if n = i then v else f n

theorem upd_same {α : Type} (f : Nat → α) (i : Nat) (v : α) : upd f i v i = v := by
  simp [upd]

theorem upd_ne {α : Type} (f : Nat → α) (i : Nat) (v : α) {j : Nat} (h : j ≠ i) :
    upd f i v j = f j := by
  simp [upd, h]

/-- The DataFrame of work columns built by the function named pdsi with a
leading underscore in src/pdinew.py (lines 604-634): the input Z column and
the NaN-initialised intermediate and output columns, plus the two integer
backtracking-index columns.  Each column is a function from the flat
monthly series index. -/
structure DF where
  Z : Nat → F
  PPR : Nat → F
  PDSI : Nat → F
  PHDI : Nat → F
  WPLM : Nat → F
  SX : Nat → F
  SX1 : Nat → F
  SX2 : Nat → F
  SX3 : Nat → F
  X : Nat → F
  PX1 : Nat → F
  PX2 : Nat → F
  PX3 : Nat → F
  idxJ : Nat → Nat
  idxM : Nat → Nat

/-- The tuple returned by every transition function of the spell tracker:
the updated DataFrame plus the carried scalars X1, X2, X3, V, prob_ended
and the backtracking count K8. -/
structure PdsiSt where
  df : DF
  X1 : F
  X2 : F
  X3 : F
  V : F
  probEnded : F
  K8 : Nat

/-- WPLM selection, translated from the underscore-prefixed function case
(src/pdinew.py lines 1225-1265). -/
def _case (PROB X1 X2 X3 : F) : F :=
  if F.beq X3 (F.fin 0) then
    if F.gt (F.fabs X2) (F.fabs X1) then X2 else X1
  else if F.gt PROB (F.fin 0) && F.lt PROB (F.fin 100) then
    let probability := PROB / F.fin 100
    if F.gt X3 (F.fin 0) then
      (F.fin 1 - probability) * X3 + probability * X2
    else
      (F.fin 1 - probability) * X3 + probability * X1
  else X3

/-- The descending ISAVE walk inside assign (src/pdinew.py lines
1143-1176).  The counter n is the number of buffer positions still to
process; the call handles positions n-1, n-2, ..., 0, switching the
tracked series whenever the currently tracked one stores an exact 0. -/
def assignWalk (df : DF) (isave : Nat) : Nat → DF
  | 0 => df
  | n + 1 =>
    if isave = 1 then
      if F.beq (df.SX1 n) (F.fin 0) then
        assignWalk { df with SX := upd df.SX n (df.SX2 n) } 2 n
      else
        assignWalk { df with SX := upd df.SX n (df.SX1 n) } 1 n
    else if isave = 2 then
      if F.beq (df.SX2 n) (F.fin 0) then
        assignWalk { df with SX := upd df.SX n (df.SX1 n) } 1 n
      else
        assignWalk { df with SX := upd df.SX n (df.SX2 n) } 2 n
    else assignWalk df isave n

/-- One step of the backtracking output loop of assign (src/pdinew.py
lines 1184-1220, with the debug printing dropped): write that buffered
month's PDSI, PHDI and WPLM from the SX value determined for it. -/
def assignOutStep (df : DF) (n : Nat) : DF :=
  let ix := 12 * df.idxJ n + df.idxM n
  let d1 := { df with PDSI := upd df.PDSI ix (df.SX n) }
  let phdi := if F.beq (d1.PX3 ix) (F.fin 0) then d1.SX n else d1.PX3 ix
  let d2 := { d1 with PHDI := upd d1.PHDI ix phdi }
  let wplm := _case (d2.PPR ix) (d2.PX1 ix) (d2.PX2 ix) (d2.PX3 ix)
  { d2 with WPLM := upd d2.WPLM ix wplm }

def assignOut (df : DF) (k : Nat) : DF := (List.range k).foldl assignOutStep df

/-- The code-3 branch of assign (src/pdinew.py lines 1135-1137): every
buffered month keeps its own stored X3. -/
def sx3Copy (df : DF) (k : Nat) : DF :=
  (List.range k).foldl (fun d mm => { d with SX := upd d.SX mm (d.SX3 mm) }) df

/-- Translated from the underscore-prefixed function assign (src/pdinew.py
lines 1086-1222).  The year-bound parameters of the Python signature are
unused there and dropped here. -/
def _assign (df : DF) (iass K8 j m : Nat) : DF :=
  let i := 12 * j + m
  let df0 := { df with SX := upd df.SX K8 (df.X i) }
  if K8 = 0 then
    let d1 := { df0 with PDSI := upd df0.PDSI i (df0.X i) }
    let phdi := if F.beq (d1.PX3 i) (F.fin 0) then d1.X i else d1.PX3 i
    let d2 := { d1 with PHDI := upd d1.PHDI i phdi }
    let wplm := _case (d2.PPR i) (d2.PX1 i) (d2.PX2 i) (d2.PX3 i)
    { d2 with WPLM := upd d2.WPLM i wplm }
  else
    let d1 := if iass = 3 then sx3Copy df0 K8 else assignWalk df0 iass K8
    assignOut d1 (K8 + 1)

/-- Translated from the underscore-prefixed function get_PPR_PX3
(src/pdinew.py lines 739-771): probability that the established spell has
ended, capped at 100, and the provisional X3. -/
def _get_PPR_PX3 (df : DF) (prob_ended Ze V PV : F) (ix : Nat) (X3 : F) : DF :=
  let Q := if F.beq prob_ended (F.fin 100) then Ze else Ze + V
  let ppr := PV / Q * F.fin 100
  if F.ge ppr (F.fin 100) then
    { df with PPR := upd df.PPR ix (F.fin 100), PX3 := upd df.PX3 ix (F.fin 0) }
  else
    { df with PPR := upd df.PPR ix ppr,
              PX3 := upd df.PX3 ix (F.fin (897/1000) * X3 + df.Z ix / F.fin 3) }

/-- Translated from the underscore-prefixed function between_0s
(src/pdinew.py lines 1009-1083): a possible abatement has fizzled out, all
stored X3 values are accepted. -/
def _between_0s (df : DF) (K8 : Nat) (X3 : F) (j m : Nat) : PdsiSt :=
  let i := 12 * j + m
  let d0 := { df with PPR := upd df.PPR i (F.fin 0) }
  let d1 := { d0 with PX1 := upd d0.PX1 i (F.fin 0) }
  let d2 := { d1 with PX2 := upd d1.PX2 i (F.fin 0) }
  let d3 := { d2 with PX3 := upd d2.PX3 i (F.fin (897/1000) * X3 + d2.Z i / F.fin 3) }
  let d4 := { d3 with X := upd d3.X i (d3.PX3 i) }
  let d5 :=
    if K8 = 0 then
      let e1 := { d4 with PDSI := upd d4.PDSI i (d4.X i) }
      let phdi := if F.beq (e1.PX3 i) (F.fin 0) then e1.X i else e1.PX3 i
      let e2 := { e1 with PHDI := upd e1.PHDI i phdi }
      let wplm := _case (e2.PPR i) (e2.PX1 i) (e2.PX2 i) (e2.PX3 i)
      { e2 with WPLM := upd e2.WPLM i wplm }
    else _assign d4 3 K8 j m
  { df := d5, X1 := d5.PX1 i, X2 := d5.PX2 i, X3 := d5.PX3 i,
    V := F.fin 0, probEnded := d5.PPR i, K8 := 0 }

/-- Translated from the underscore-prefixed function compute_X
(src/pdinew.py lines 871-1005): continue the X1 and X2 recurrences, decide
whether the month can be finalized (through assign) or must be deferred to
the backtracking buffer.  The deferral branch includes the in-source
backtracking-index reset applied when K8 is 0 (lines 984-986). -/
def _compute_X (df : DF) (X1 X2 : F) (j m K8 : Nat) (PV : F) : PdsiSt :=
  let i := 12 * j + m
  let px1 := F.pymax (F.fin (897/1000) * X1 + df.Z i / F.fin 3) (F.fin 0)
  let d0 := { df with PX1 := upd df.PX1 i px1 }
  if F.ge (d0.PX1 i) (F.fin 1) && F.beq (d0.PX3 i) (F.fin 0) then
    let e0 := { d0 with X := upd d0.X i (d0.PX1 i) }
    let e1 := { e0 with PX3 := upd e0.PX3 i (e0.PX1 i) }
    let e2 := { e1 with PX1 := upd e1.PX1 i (F.fin 0) }
    let e3 := _assign e2 1 K8 j m
    { df := e3, X1 := e3.PX1 i, X2 := e3.PX2 i, X3 := e3.PX3 i,
      V := PV, probEnded := e3.PPR i, K8 := 0 }
  else
    let px2 := F.pymin (F.fin (897/1000) * X2 + d0.Z i / F.fin 3) (F.fin 0)
    let d1 := { d0 with PX2 := upd d0.PX2 i px2 }
    if F.le (d1.PX2 i) (F.fin (-1)) && F.beq (d1.PX3 i) (F.fin 0) then
      let e0 := { d1 with X := upd d1.X i (d1.PX2 i) }
      let e1 := { e0 with PX3 := upd e0.PX3 i (e0.PX2 i) }
      let e2 := { e1 with PX2 := upd e1.PX2 i (F.fin 0) }
      let e3 := _assign e2 2 K8 j m
      { df := e3, X1 := e3.PX1 i, X2 := e3.PX2 i, X3 := e3.PX3 i,
        V := PV, probEnded := e3.PPR i, K8 := 0 }
    else if F.beq (d1.PX3 i) (F.fin 0) && F.beq (d1.PX1 i) (F.fin 0) then
      let e0 := { d1 with X := upd d1.X i (d1.PX2 i) }
      let e1 := _assign e0 2 K8 j m
      { df := e1, X1 := e1.PX1 i, X2 := e1.PX2 i, X3 := e1.PX3 i,
        V := PV, probEnded := e1.PPR i, K8 := 0 }
    else if F.beq (d1.PX3 i) (F.fin 0) && F.beq (d1.PX2 i) (F.fin 0) then
      let e0 := { d1 with X := upd d1.X i (d1.PX1 i) }
      let e1 := _assign e0 1 K8 j m
      { df := e1, X1 := e1.PX1 i, X2 := e1.PX2 i, X3 := e1.PX3 i,
        V := PV, probEnded := e1.PPR i, K8 := 0 }
    else
      let d2 := if K8 = 0 then
          { d1 with idxJ := upd d1.idxJ 0 j, idxM := upd d1.idxM 0 m }
        else d1
      let d3 := { d2 with SX1 := upd d2.SX1 K8 (d2.PX1 i) }
      let d4 := { d3 with SX2 := upd d3.SX2 K8 (d3.PX2 i) }
      let d5 := { d4 with SX3 := upd d4.SX3 K8 (d4.PX3 i) }
      let d6 := { d5 with X := upd d5.X i (d5.PX3 i) }
      { df := d6, X1 := d6.PX1 i, X2 := d6.PX2 i, X3 := d6.PX3 i,
        V := PV, probEnded := d6.PPR i, K8 := K8 + 1 }

/-- Translated from the underscore-prefixed function wet_spell_abatement
(src/pdinew.py lines 775-810).  Note that the Python falls through to
compute_X in both branches, also after the between-0s call. -/
def _wet_spell_abatement (df : DF) (V : F) (K8 : Nat) (prob_ended : F)
    (j m : Nat) (X1 X2 X3 : F) : PdsiSt :=
  let i := 12 * j + m
  let Ud := df.Z i - F.fin (3/20)
  let PV := Ud + F.pymin V (F.fin 0)
  if F.ge PV (F.fin 0) then
    let o := _between_0s df K8 X3 j m
    _compute_X o.df o.X1 o.X2 j m o.K8 PV
  else
    let Ze := F.fin (-(2691/1000)) * X3 + F.fin (3/2)
    let d := _get_PPR_PX3 df prob_ended Ze V PV i X3
    _compute_X d X1 X2 j m K8 PV

/-- Translated from the underscore-prefixed function dry_spell_abatement
(src/pdinew.py lines 814-867), symmetric to the wet case. -/
def _dry_spell_abatement (df : DF) (K8 : Nat) (j m : Nat)
    (V X1 X2 X3 prob_ended : F) : PdsiSt :=
  let i := 12 * j + m
  let Uw := df.Z i + F.fin (3/20)
  let PV := Uw + F.pymax V (F.fin 0)
  if F.le PV (F.fin 0) then
    let o := _between_0s df K8 X3 j m
    _compute_X o.df o.X1 o.X2 j m o.K8 PV
  else
    let Ze := F.fin (-(2691/1000)) * X3 - F.fin (3/2)
    let d := _get_PPR_PX3 df prob_ended Ze V PV i X3
    _compute_X d X1 X2 j m K8 PV

/-- One month of the main loop of the underscore-prefixed function pdsi
(src/pdinew.py lines 637-717): record the backtracking indices for the
current month, then dispatch on prob_ended and X3.  When prob_ended is 0 or
100 and X3 is NaN, none of the three Python branches fires and the month is
skipped apart from the index bookkeeping. -/
def pdsiMonth (st : PdsiSt) (j m : Nat) : PdsiSt :=
  let i := 12 * j + m
  let df0 := { st.df with idxJ := upd st.df.idxJ st.K8 j }
  let df := { df0 with idxM := upd df0.idxM st.K8 m }
  if F.beq st.probEnded (F.fin 100) || F.beq st.probEnded (F.fin 0) then
    if F.le (F.fabs st.X3) (F.fin (1/2)) then
      let d1 := { df with PPR := upd df.PPR i (F.fin 0) }
      let d2 := { d1 with PX3 := upd d1.PX3 i (F.fin 0) }
      _compute_X d2 st.X1 st.X2 j m st.K8 (F.fin 0)
    else if F.gt st.X3 (F.fin (1/2)) then
      if F.ge (df.Z i) (F.fin (3/20)) then
        _between_0s df st.K8 st.X3 j m
      else
        _wet_spell_abatement df st.V st.K8 st.probEnded j m st.X1 st.X2 st.X3
    else if F.lt st.X3 (F.fin (-(1/2))) then
      if F.lt (df.Z i) (F.fin (-(3/20))) then
        _between_0s df st.K8 st.X3 j m
      else
        _dry_spell_abatement df st.K8 j m st.V st.X1 st.X2 st.X3 st.probEnded
    else { st with df := df }
  else
    if F.gt st.X3 (F.fin 0) then
      _wet_spell_abatement df st.V st.K8 st.probEnded j m st.X1 st.X2 st.X3
    else
      _dry_spell_abatement df st.K8 j m st.V st.X1 st.X2 st.X3 st.probEnded

/-- One step of the terminal buffer flush of the underscore-prefixed
function pdsi (src/pdinew.py lines 720-732). -/
def pdsiFlushStep (df : DF) (x : Nat) : DF :=
  let ix := 12 * df.idxJ x + df.idxM x
  let d1 := { df with PDSI := upd df.PDSI ix (df.X ix) }
  let phdi := if F.beq (d1.PX3 ix) (F.fin 0) then d1.X ix else d1.PX3 ix
  let d2 := { d1 with PHDI := upd d1.PHDI ix phdi }
  let wplm := _case (d2.PPR ix) (d2.PX1 ix) (d2.PX2 ix) (d2.PX3 ix)
  { d2 with WPLM := upd d2.WPLM ix wplm }

/-- Year and month index pairs of the main loop, in loop order. -/
def monthIdxList (nyears : Nat) : List (Nat × Nat) :=
  (List.range nyears).flatMap fun j => (List.range 12).map fun m => (j, m)

/-- The initial DataFrame (src/pdinew.py lines 604-634): the Z input column
plus NaN-initialised work columns and zero-initialised index columns. -/
def initialDF (Z : Nat → F) : DF :=
  { Z := Z, PPR := fun _ => F.nan, PDSI := fun _ => F.nan,
    PHDI := fun _ => F.nan, WPLM := fun _ => F.nan, SX := fun _ => F.nan,
    SX1 := fun _ => F.nan, SX2 := fun _ => F.nan, SX3 := fun _ => F.nan,
    X := fun _ => F.nan, PX1 := fun _ => F.nan, PX2 := fun _ => F.nan,
    PX3 := fun _ => F.nan, idxJ := fun _ => 0, idxM := fun _ => 0 }

/-- Translated from the underscore-prefixed function pdsi (src/pdinew.py
lines 568-735), with the debug-only expected-PDSI comparison dropped: run
the month loop over all years, then flush any months still pending in the
backtracking buffer.  Returns the final DataFrame, whose PDSI, PHDI and
WPLM columns are the function's outputs. -/
def _pdsi (Z : Nat → F) (nyears : Nat) : DF :=
  let st0 : PdsiSt :=
    { df := initialDF Z, X1 := F.fin 0, X2 := F.fin 0, X3 := F.fin 0,
      V := F.fin 0, probEnded := F.fin 0, K8 := 0 }
  let stN := (monthIdxList nyears).foldl (fun st jm => pdsiMonth st jm.1 jm.2) st0
  (List.range stN.K8).foldl pdsiFlushStep stN.df

/-- Per-month record of the water balance (the values stored into the data
arrays at src/pdinew.py lines 491-504; the temperature echo is omitted). -/
structure WBMonth where
  P : ℚ
  PE : ℚ
  SP : ℚ
  PR : ℚ
  PRO : ℚ
  PL : ℚ
  R : ℚ
  RO : ℚ
  TL : ℚ
  ET : ℚ
  SSS : ℚ
  SSU : ℚ
deriving DecidableEq, Inhabited

/-- One month of the underscore-prefixed function water_balance
(src/pdinew.py lines 398-508), with the top-layer capacity WCTOP = 1.
The potential evapotranspiration PE is taken as an input parameter here:
its temperature formula (lines 409-426) is transcendental (sin, exp, log,
atan) and not representable over the rationals, and every theorem below
holds for all values of PE, so this abstraction is sound. -/
def _water_balance_month (AWC SS SU precip PE : ℚ) : WBMonth :=
  let SP := SS + SU
  let PR := AWC + 1 - SP
  let PRO := SP
  let PL := if SS ≥ PE then PE else min ((PE - SS) * SU / (AWC + 1) + SS) SP
  if precip ≥ PE then
    if precip - PE > 1 - SS then
      let RS := 1 - SS
      if precip - PE - RS < AWC - SU then
        { P := precip, PE := PE, SP := SP, PR := PR, PRO := PRO, PL := PL,
          R := RS + (precip - PE - RS), RO := 0, TL := 0, ET := PE,
          SSS := 1, SSU := SU + (precip - PE - RS) }
      else
        { P := precip, PE := PE, SP := SP, PR := PR, PRO := PRO, PL := PL,
          R := RS + (AWC - SU), RO := precip - PE - RS - (AWC - SU),
          TL := 0, ET := PE, SSS := 1, SSU := SU + (AWC - SU) }
    else
      { P := precip, PE := PE, SP := SP, PR := PR, PRO := PRO, PL := PL,
        R := precip - PE, RO := 0, TL := 0, ET := PE,
        SSS := SS + precip - PE, SSU := SU }
  else
    if SS ≥ PE - precip then
      { P := precip, PE := PE, SP := SP, PR := PR, PRO := PRO, PL := PL,
        R := 0, RO := 0, TL := (PE - precip) + 0,
        ET := precip + (PE - precip) + 0, SSS := SS - (PE - precip), SSU := SU }
    else
      let SL := SS
      let UL := min ((PE - precip - SL) * SU / (AWC + 1)) SU
      { P := precip, PE := PE, SP := SP, PR := PR, PRO := PRO, PL := PL,
        R := 0, RO := 0, TL := SL + UL, ET := precip + SL + UL,
        SSS := 0, SSU := SU - UL }

/-- The month loop of the underscore-prefixed function water_balance,
threading the carried soil moisture SS and SU through the input months
(each a precipitation and PE pair). -/
def _water_balance (AWC : ℚ) : List (ℚ × ℚ) → ℚ → ℚ → List WBMonth
  | [], _, _ => []
  | (precip, PE) :: rest, SS, SU =>
    let r := _water_balance_month AWC SS SU precip PE
    r :: _water_balance AWC rest r.SSS r.SSU

/-- The full water-balance run from the initial state SS = WCTOP = 1 and
SU = AWC (src/pdinew.py lines 361-363). -/
def waterBalanceRun (AWC : ℚ) (months : List (ℚ × ℚ)) : List WBMonth :=
  _water_balance AWC months 1 AWC

/-- Sum of one calendar month's column over the calibration years
(the per-month nansum of src/pdinew.py lines 213-222, for non-missing
data). -/
def monthSum (rows : List (Fin 12 → ℚ)) (m : Fin 12) : ℚ :=
  (rows.map fun r => r m).sum

/-- The windowed-slice selection of calibration years (src/pdinew.py lines
177-186): rows with year index from calStart-dataStart to
calEnd-dataStart inclusive. -/
def calibSlice (rows : List (Fin 12 → ℚ)) (dataStart calStart calEnd : Nat) :
    List (Fin 12 → ℚ) :=
  (rows.drop (calStart - dataStart)).take (calEnd + 1 - calStart)

/-- The dispatcher condition of src/pdinew.py line 176, including the
in-source quirk of line 169 where the year count is divided by 12 once
more when computing the data end year. -/
def useCalibSlice (nrows dataStart calStart calEnd : Nat) : Bool :=
  decide (calStart > dataStart) || decide (calEnd < dataStart + nrows / 12 - 1)

/-- The five CAFEC outputs, one entry per calendar month. -/
structure CafecOut where
  alpha : Fin 12 → ℚ
  beta : Fin 12 → ℚ
  gamma : Fin 12 → ℚ
  delta : Fin 12 → ℚ
  t_ratio : Fin 12 → ℚ

/-- The coefficient computation of the underscore-prefixed function
cafec_coefficients (src/pdinew.py lines 199-277) applied to
already-selected calibration rows.  The PRO series is sliced by the source
but never summed or used, so it is omitted here. -/
def cafecFromRows (P ET PET R PR L PL RO SP : List (Fin 12 → ℚ)) : CafecOut :=
  { alpha := fun m =>
      if monthSum PET m ≠ 0 then monthSum ET m / monthSum PET m
      else if monthSum ET m = 0 then 1 else 0,
    beta := fun m =>
      if monthSum PR m ≠ 0 then monthSum R m / monthSum PR m
      else if monthSum R m = 0 then 1 else 0,
    gamma := fun m =>
      if monthSum SP m ≠ 0 then monthSum RO m / monthSum SP m
      else if monthSum RO m = 0 then 1 else 0,
    delta := fun m =>
      if monthSum PL m ≠ 0 then monthSum L m / monthSum PL m else 0,
    t_ratio := fun m =>
      (monthSum PET m + monthSum R m + monthSum RO m) /
        (monthSum P m + monthSum L m) }

/-- The calibration rows a series contributes: the windowed slice when the
dispatcher condition holds (nrows is the year count of the precipitation
grid), the full series otherwise (src/pdinew.py lines 176-197). -/
def calibSelection (nrows : Nat) (rows : List (Fin 12 → ℚ))
    (dataStart calStart calEnd : Nat) : List (Fin 12 → ℚ) :=
  if useCalibSlice nrows dataStart calStart calEnd then
    calibSlice rows dataStart calStart calEnd
  else rows

/-- Translated from the underscore-prefixed function cafec_coefficients
(src/pdinew.py lines 99-277): select the calibration years, by the
windowed slice or by taking the full series, then compute the monthly
coefficients. -/
def _cafec_coefficients (P ET PET R PR L PL RO SP : List (Fin 12 → ℚ))
    (dataStart calStart calEnd : Nat) : CafecOut :=
  let pick := fun rows => calibSelection P.length rows dataStart calStart calEnd
  cafecFromRows (pick P) (pick ET) (pick PET) (pick R) (pick PR) (pick L)
    (pick PL) (pick RO) (pick SP)

/-- Absolute value on the rationals, written with an explicit branch
(the Python builtin abs). -/
def ratAbs (q : ℚ) : ℚ := if q < 0 then -q else q

theorem ratAbs_eq_abs (q : ℚ) : ratAbs q = |q| := by
  by_cases h : q < 0 <;> simp [ratAbs, h, abs_of_neg, abs_of_nonneg, le_of_not_lt]

/-- Lifting of a base-10 logarithm oracle to F, propagating NaN.  The
logarithm itself is transcendental, so it is taken as a parameter. -/
def log10F (log10 : ℚ → ℚ) : F → F
  | F.fin q => F.fin (log10 q)
  | F.nan => F.nan

/-- Translated from the underscore-prefixed function
climatic_characteristic (src/pdinew.py lines 281-323).  The mean absolute
departure DBAR is an exact rational; the division (t_ratio + 2.8) / DBAR
is performed in F so that a zero DBAR produces the junk value rather than
a number, after which the junk propagates through AKHAT, the
normalisation sum SWTD, and every entry of the returned K array: the
source contains no guard or raised error for this case. -/
def _climatic_characteristic (log10 : ℚ → ℚ) (alpha beta gamma delta : Fin 12 → ℚ)
    (Pdat PEdat PRdat SPdat PLdat : Nat → Fin 12 → ℚ) (t_ratio : Fin 12 → ℚ)
    (begin_year calibration_begin_year calibration_end_year : Nat) : Fin 12 → F :=
  let numYears : ℚ := (calibration_end_year + 1 - calibration_begin_year : Nat)
  let SABSD : Fin 12 → ℚ := fun m =>
    ((List.range (calibration_end_year + 1 - calibration_begin_year)).map fun k =>
      let j := calibration_begin_year - begin_year + k
      let PHAT := alpha m * PEdat j m + beta m * PRdat j m +
        gamma m * SPdat j m - delta m * PLdat j m
      ratAbs (Pdat j m - PHAT)).sum
  let AKHAT : Fin 12 → F := fun m =>
    let DBAR := SABSD m / numYears
    F.fin (3/2) * log10F log10 (F.div (F.fin (t_ratio m + 14/5)) (F.fin DBAR)) +
      F.fin (1/2)
  let SWTD : F :=
    ((List.finRange 12).map fun m => F.fin (SABSD m / numYears) * AKHAT m).foldl
      F.add (F.fin 0)
  fun m => F.fin (1767/100) * AKHAT m / SWTD

/-- Translated from the underscore-prefixed function zindex (src/pdinew.py
lines 513-565).  The P_hat name is bound to a NaN array before the loop
(line 545) and then rebound to a plain scalar on every iteration (line
557), so the value returned alongside the Z array is the single CAFEC
precipitation of the last iterated month; the junk initial value here
stands for the dead array allocation and is returned only when the loop
body never runs. -/
def _zindex (alpha beta gamma delta : Fin 12 → ℚ)
    (P PE PR PRO PL : Nat → Fin 12 → ℚ) (K : Fin 12 → ℚ) (nyears : Nat) :
    (Nat → Fin 12 → F) × F :=
  ((List.range nyears).flatMap fun j => (List.finRange 12).map fun m => (j, m)).foldl
    (fun acc jm =>
      let ET_hat := alpha jm.2 * PE jm.1 jm.2
      let R_hat := beta jm.2 * PR jm.1 jm.2
      let RO_hat := gamma jm.2 * PRO jm.1 jm.2
      let L_hat := delta jm.2 * PL jm.1 jm.2
      let P_hat := ET_hat + R_hat + RO_hat - L_hat
      let d := P jm.1 jm.2 - P_hat
      (fun j' m' => if j' = jm.1 ∧ m' = jm.2 then F.fin (K jm.2 * d) else acc.1 j' m',
        F.fin P_hat))
    (fun _ _ => F.nan, F.nan)

/-- Concrete one-year Z-index input for exercising the spell tracker: a
strongly wet January, a strongly dry February, and zero afterwards. -/
def c4Z : Nat → F :=
  fun n => if n = 0 then F.fin 9 else if n = 1 then F.fin (-9) else F.fin 0

/-- C4: the claim that every month ends with a non-missing PDSI, PHDI and
WPLM fails on the code.  On the Z series 9, -9, 0, ..., 0 the January
recompute-X step finalizes through the X1-new-spell branch without ever
writing PX2, the NaN read back from PX2 is carried into February as X2,
and February's finalization assigns X = PX2 = NaN, leaving PDSI and PHDI
for month 1 as missing values on termination. -/
theorem c4_nan_output :
    (_pdsi c4Z 1).PDSI 1 = F.nan ∧ (_pdsi c4Z 1).PHDI 1 = F.nan := by
  decide

/-- Concrete recompute-X input: the provisional X3 for the month has been
set to 0 (as the near-normal branch does), the probability of end is 0,
the Z value is 0, and the carried X1 and X2 are both 0, so both updated
provisional values are exactly 0. -/
def c1df : DF :=
  { initialDF (fun _ => F.fin 0) with
    PPR := fun _ => F.fin 0, PX3 := fun _ => F.fin 0 }

/-- C1 counterexample: with provisional X3 = 0 and both updated X1 and X2
equal to 0 (so not exactly one of them nonzero), the claim requires the
month to be appended to the BacktrackBuffer with its PDSI still pending;
the code instead finalizes it immediately through assign with code 2,
leaving the buffer length at 0 and the month's PDSI set to 0. -/
theorem c1_counterexample :
    (_compute_X c1df (F.fin 0) (F.fin 0) 0 0 0 (F.fin 0)).K8 = 0 ∧
    (_compute_X c1df (F.fin 0) (F.fin 0) 0 0 0 (F.fin 0)).df.PDSI 0 = F.fin 0 ∧
    ¬((_compute_X c1df (F.fin 0) (F.fin 0) 0 0 0 (F.fin 0)).K8 = 1 ∧
      (_compute_X c1df (F.fin 0) (F.fin 0) 0 0 0 (F.fin 0)).df.PDSI 0 = F.nan) := by
  decide

/-- Concrete assign input: a two-entry BacktrackBuffer whose most recent
entry stores X1 = 0 (and X2 = -3) while the oldest entry stores X1 = 5
(and X2 = 0); the index columns map buffer slot n to month n and the
current month is month 2. -/
def c2df : DF :=
  { initialDF (fun _ => F.fin 0) with
    PPR := fun _ => F.fin 0, PX1 := fun _ => F.fin 0, PX2 := fun _ => F.fin 0,
    PX3 := fun _ => F.fin 0, X := fun _ => F.fin 0,
    SX1 := fun n => if n = 0 then F.fin 5 else F.fin 0,
    SX2 := fun n => if n = 1 then F.fin (-3) else F.fin 0,
    idxM := fun n => n }

/-- C2 counterexample: walking with code 1, the zero stored X1 at the most
recent entry switches the walk to the X2 series (month 1 receives -3), so
by the claim the remainder of the walk must keep using X2 and month 0
would receive its stored X2, namely 0.  The code instead switches back at
the zero stored X2 and assigns month 0 its stored X1 value 5: more than
one switch occurs during a single walk. -/
theorem c2_counterexample :
    (_assign c2df 1 2 0 2).PDSI 1 = F.fin (-3) ∧
    (_assign c2df 1 2 0 2).PDSI 0 = F.fin 5 ∧
    c2df.SX1 1 = F.fin 0 ∧ c2df.SX2 0 = F.fin 0 ∧ F.fin 5 ≠ (F.fin 0 : F) := by
  decide

/-- Constant-one and constant-zero monthly coefficient rows. -/
def ones12 : Fin 12 → ℚ := fun _ => 1

def zeros12 : Fin 12 → ℚ := fun _ => 0

def zeroGrid : Nat → Fin 12 → ℚ := fun _ _ => 0

/-- A potential-evapotranspiration grid whose CAFEC precipitation differs
month by month: PE in month m is m inches. -/
def c9PE : Nat → Fin 12 → ℚ := fun _ m => (m : ℚ)

/-- C9: with alpha = 1 and the other coefficients 0, the CAFEC
precipitation of month m is m, yet the value returned alongside the Z
array is the single scalar 11, the CAFEC precipitation of the final
iterated month (December), not a series with one value per month - the
array allocated for it is overwritten by the scalar rebinding at
src/pdinew.py line 557.  The Z array itself is filled for every month. -/
theorem c9_phat_last_month_only :
    (_zindex ones12 zeros12 zeros12 zeros12 zeroGrid c9PE zeroGrid zeroGrid
      zeroGrid ones12 1).2 = F.fin 11 ∧
    (_zindex ones12 zeros12 zeros12 zeros12 zeroGrid c9PE zeroGrid zeroGrid
      zeroGrid ones12 1).1 0 11 = F.fin (-11) ∧
    (_zindex ones12 zeros12 zeros12 zeros12 zeroGrid c9PE zeroGrid zeroGrid
      zeroGrid ones12 1).1 0 0 = F.fin 0 := by
  decide

/-- C8: on a degenerate calibration window with zero mean absolute
departure in every month (all inputs zero over a single calibration year),
the climatic-characteristic computation raises no error of any kind: it is
a total function with no failure branch, and the junk value produced by
the zero-DBAR division propagates through AKHAT and the normalisation sum
into every entry of the returned K array (the junk arises before the
logarithm oracle is ever consulted, so any oracle gives the same result)
instead of failing with a ComputationError. -/
theorem c8_degenerate_no_error :
    ∀ m : Fin 12,
      _climatic_characteristic (fun _ => 0) zeros12 zeros12 zeros12 zeros12
        zeroGrid zeroGrid zeroGrid zeroGrid zeroGrid zeros12 0 0 0 m = F.nan := by
  decide

/-- C3: the wet-abatement transition.  With Ud = Z - 0.15 and
PV = Ud + min(V, 0): when PV is nonnegative the transition proceeds as
consolidate (between-0s) and then continues to recompute-X carrying PV;
otherwise, with Ze = -2.691 X3 + 1.5 and Q equal to Ze when prob_ended is
100 and Ze + V otherwise, the probability of end is set to PV / Q * 100
capped at 100, the provisional X3 is forced to 0 when the cap is reached
and is 0.897 X3 + Z / 3 otherwise, and the transition continues to
recompute-X carrying PV. -/
theorem c3_wet_abatement (df : DF) (V : F) (K8 : Nat) (prob_ended : F)
    (j m : Nat) (X1 X2 X3 : F) (PV Ze Q ppr : F)
    (hPV : PV = df.Z (12 * j + m) - F.fin (3/20) + F.pymin V (F.fin 0))
    (hZe : Ze = F.fin (-(2691/1000)) * X3 + F.fin (3/2))
    (hQ : Q = if F.beq prob_ended (F.fin 100) then Ze else Ze + V)
    (hppr : ppr = PV / Q * F.fin 100) :
    (F.ge PV (F.fin 0) = true →
      _wet_spell_abatement df V K8 prob_ended j m X1 X2 X3 =
        _compute_X (_between_0s df K8 X3 j m).df (_between_0s df K8 X3 j m).X1
          (_between_0s df K8 X3 j m).X2 j m (_between_0s df K8 X3 j m).K8 PV) ∧
    (F.ge PV (F.fin 0) = false → F.ge ppr (F.fin 100) = true →
      _wet_spell_abatement df V K8 prob_ended j m X1 X2 X3 =
        _compute_X { df with PPR := upd df.PPR (12 * j + m) (F.fin 100),
                             PX3 := upd df.PX3 (12 * j + m) (F.fin 0) }
          X1 X2 j m K8 PV) ∧
    (F.ge PV (F.fin 0) = false → F.ge ppr (F.fin 100) = false →
      _wet_spell_abatement df V K8 prob_ended j m X1 X2 X3 =
        _compute_X { df with PPR := upd df.PPR (12 * j + m) ppr,
                             PX3 := upd df.PX3 (12 * j + m)
                               (F.fin (897/1000) * X3 + df.Z (12 * j + m) / F.fin 3) }
          X1 X2 j m K8 PV) := by
  subst hPV hZe hQ hppr
  unfold _wet_spell_abatement _get_PPR_PX3
  refine ⟨fun h => ?_, fun h hc => ?_, fun h hc => ?_⟩
  · simp only [h, if_true]
  · simp only [h, hc, Bool.false_eq_true, if_false, if_true]
  · simp only [h, hc, Bool.false_eq_true, if_false, if_true]

/-- Concrete wet-abatement input: Z = -9 everywhere, carried X3 = 3,
V = 0 and prob_ended = 0, so PV = -9.15 is negative and the computed
probability of end 139.2 percent is capped at 100. -/
def c3wdf : DF :=
  { initialDF (fun _ => F.fin (-9)) with
    PPR := fun _ => F.fin 0, PX3 := fun _ => F.fin 3 }

/-- Witness for C3 at a concrete input, taking the capped branch. -/
theorem c3_wet_abatement_witness :
    _wet_spell_abatement c3wdf (F.fin 0) 0 (F.fin 0) 0 0 (F.fin 0) (F.fin 0)
      (F.fin 3) =
      _compute_X { c3wdf with PPR := upd c3wdf.PPR 0 (F.fin 100),
                              PX3 := upd c3wdf.PX3 0 (F.fin 0) }
        (F.fin 0) (F.fin 0) 0 0 0 (F.fin (-183/20)) := by
  have h := c3_wet_abatement c3wdf (F.fin 0) 0 (F.fin 0) 0 0 (F.fin 0) (F.fin 0)
    (F.fin 3) (F.fin (-183/20)) (F.fin (-6573/1000)) (F.fin (-6573/1000))
    (F.fin ((-183/20) / (-6573/1000) * 100))
    (by decide) (by decide) (by decide) (by decide)
  exact h.2.1 (by decide) (by decide)

theorem F.beq_same (q : ℚ) : F.beq (F.fin q) (F.fin q) = true := by
  simp [F.beq]

/-- C1 amended: in recompute-X, for a month whose provisional X3 is 0 and
for which neither new-spell threshold fires (updated X1 below 1, updated
X2 above -1), the month is finalized immediately exactly when at least one
of the updated provisional X1 and X2 is zero: when X1 is zero, X is set to
the (possibly zero) X2 value and the month is finalized via assign with
code 2, clearing the buffer - in particular a month with both values zero
is finalized with X = 0, not deferred; when X1 is nonzero and X2 is zero,
X1 becomes X via assign with code 1; only when both are nonzero is the
month's (X1, X2, X3) appended to the BacktrackBuffer, with the month's
provisional X set to its X3. -/
theorem c1_amended (df : DF) (X1 X2 : F) (j m K8 : Nat) (PV px1 px2 : F)
    (hpx1 : px1 = F.pymax (F.fin (897/1000) * X1 + df.Z (12 * j + m) / F.fin 3)
      (F.fin 0))
    (hpx2 : px2 = F.pymin (F.fin (897/1000) * X2 + df.Z (12 * j + m) / F.fin 3)
      (F.fin 0))
    (h3 : df.PX3 (12 * j + m) = F.fin 0)
    (hno1 : F.ge px1 (F.fin 1) = false)
    (hno2 : F.le px2 (F.fin (-1)) = false) :
    (F.beq px1 (F.fin 0) = true →
      (_compute_X df X1 X2 j m K8 PV).df =
        _assign { df with PX1 := upd df.PX1 (12 * j + m) px1,
                          PX2 := upd df.PX2 (12 * j + m) px2,
                          X := upd df.X (12 * j + m) px2 } 2 K8 j m ∧
      (_compute_X df X1 X2 j m K8 PV).K8 = 0) ∧
    (F.beq px1 (F.fin 0) = false → F.beq px2 (F.fin 0) = true →
      (_compute_X df X1 X2 j m K8 PV).df =
        _assign { df with PX1 := upd df.PX1 (12 * j + m) px1,
                          PX2 := upd df.PX2 (12 * j + m) px2,
                          X := upd df.X (12 * j + m) px1 } 1 K8 j m ∧
      (_compute_X df X1 X2 j m K8 PV).K8 = 0) ∧
    (F.beq px1 (F.fin 0) = false → F.beq px2 (F.fin 0) = false →
      (_compute_X df X1 X2 j m K8 PV).K8 = K8 + 1 ∧
      (_compute_X df X1 X2 j m K8 PV).df =
        (if K8 = 0 then
          { df with PX1 := upd df.PX1 (12 * j + m) px1,
                    PX2 := upd df.PX2 (12 * j + m) px2,
                    idxJ := upd df.idxJ 0 j, idxM := upd df.idxM 0 m,
                    SX1 := upd df.SX1 K8 px1, SX2 := upd df.SX2 K8 px2,
                    SX3 := upd df.SX3 K8 (F.fin 0),
                    X := upd df.X (12 * j + m) (F.fin 0) }
        else
          { df with PX1 := upd df.PX1 (12 * j + m) px1,
                    PX2 := upd df.PX2 (12 * j + m) px2,
                    SX1 := upd df.SX1 K8 px1, SX2 := upd df.SX2 K8 px2,
                    SX3 := upd df.SX3 K8 (F.fin 0),
                    X := upd df.X (12 * j + m) (F.fin 0) })) := by
  subst hpx1 hpx2
  unfold _compute_X
  refine ⟨fun hA => ?_, fun hA hB => ?_, fun hA hB => ?_⟩
  · constructor <;>
      simp only [upd_same, upd_ne, h3, F.beq_same, hno1, hno2, hA,
        Bool.false_and, Bool.and_false, Bool.true_and, Bool.and_true,
        Bool.false_eq_true, if_false, if_true]
  · constructor <;>
      simp only [upd_same, upd_ne, h3, F.beq_same, hno1, hno2, hA, hB,
        Bool.false_and, Bool.and_false, Bool.true_and, Bool.and_true,
        Bool.false_eq_true, if_false, if_true]
  · by_cases hk : K8 = 0 <;>
      constructor <;>
        simp only [upd_same, upd_ne, h3, F.beq_same, hno1, hno2, hA, hB, hk,
          Bool.false_and, Bool.and_false, Bool.true_and, Bool.and_true,
          Bool.false_eq_true, if_false, if_true]

/-- Concrete recompute-X input for the exactly-one-nonzero case: Z = 3/2
gives updated X1 = 1/2 (nonzero, below the new-spell threshold) and
updated X2 = 0. -/
def c1wdf : DF :=
  { initialDF (fun _ => F.fin (3/2)) with
    PPR := fun _ => F.fin 0, PX3 := fun _ => F.fin 0 }

/-- Witness for the amended C1 at a concrete input taking the code-1
finalization branch: the buffer is cleared and the month's PDSI is the
nonzero provisional X1 value. -/
theorem c1_amended_witness :
    (_compute_X c1wdf (F.fin 0) (F.fin 0) 0 0 0 (F.fin 0)).K8 = 0 ∧
    (_compute_X c1wdf (F.fin 0) (F.fin 0) 0 0 0 (F.fin 0)).df.PDSI 0 =
      F.fin (1/2) := by
  have h := c1_amended c1wdf (F.fin 0) (F.fin 0) 0 0 0 (F.fin 0) (F.fin (1/2))
    (F.fin 0) (by decide) (by decide) (by decide) (by decide) (by decide)
  have h2 := h.2.1 (by decide) (by decide)
  refine ⟨h2.2, ?_⟩
  rw [h2.1]
  decide

theorem assignWalk_SX1 (isave n : Nat) (df : DF) :
    (assignWalk df isave n).SX1 = df.SX1 := by
  induction n generalizing df isave with
  | zero => rfl
  | succ k ih =>
    unfold assignWalk
    by_cases h1 : isave = 1
    · by_cases hz : F.beq (df.SX1 k) (F.fin 0) = true <;> simp [h1, hz, ih]
    · by_cases h2 : isave = 2
      · by_cases hz : F.beq (df.SX2 k) (F.fin 0) = true <;> simp [h1, h2, hz, ih]
      · simp [h1, h2, ih]

theorem assignWalk_SX2 (isave n : Nat) (df : DF) :
    (assignWalk df isave n).SX2 = df.SX2 := by
  induction n generalizing df isave with
  | zero => rfl
  | succ k ih =>
    unfold assignWalk
    by_cases h1 : isave = 1
    · by_cases hz : F.beq (df.SX1 k) (F.fin 0) = true <;> simp [h1, hz, ih]
    · by_cases h2 : isave = 2
      · by_cases hz : F.beq (df.SX2 k) (F.fin 0) = true <;> simp [h1, h2, hz, ih]
      · simp [h1, h2, ih]

/-- The walk writes only below its counter: positions at or above it keep
their previous SX values. -/
theorem assignWalk_SX_ge (isave n : Nat) (df : DF) (mm : Nat) (h : n ≤ mm) :
    (assignWalk df isave n).SX mm = df.SX mm := by
  induction n generalizing df isave with
  | zero => rfl
  | succ k ih =>
    have hne : mm ≠ k := by omega
    have hk : k ≤ mm := by omega
    unfold assignWalk
    by_cases h1 : isave = 1
    · by_cases hz : F.beq (df.SX1 k) (F.fin 0) = true <;>
        simp [h1, hz, ih _ _ hk, upd_ne _ _ _ hne]
    · by_cases h2 : isave = 2
      · by_cases hz : F.beq (df.SX2 k) (F.fin 0) = true <;>
          simp [h1, h2, hz, ih _ _ hk, upd_ne _ _ _ hne]
      · simp [h1, h2, ih _ _ hk]

/-- The series-switch rule stated by the amended claim: the series the
walk follows flips whenever the currently followed one stores an exact 0
at the position being processed (and an ISAVE outside 1 and 2 never
changes). -/
def stepIsave (sx1 sx2 : Nat → F) (isave k : Nat) : Nat :=
  if isave = 1 then (if F.beq (sx1 k) (F.fin 0) then 2 else 1)
  else if isave = 2 then (if F.beq (sx2 k) (F.fin 0) then 1 else 2)
  else isave

/-- The series being followed when the walk, started with counter n and
initial series isave, reaches position mm: positions n-1 down to mm+1
have each been allowed to flip the series per stepIsave. -/
def isaveWhen (sx1 sx2 : Nat → F) (isave : Nat) : Nat → Nat → Nat
  | 0, _ => isave
  | k + 1, mm =>
    if k = mm then isave
    else isaveWhen sx1 sx2 (stepIsave sx1 sx2 isave k) k mm

/-- C2 amended: in the assign walk over a non-empty buffer with code 1 or
2, each processed position receives its stored X1 or X2 according to the
series currently being followed, the walk switches to the other series
each time the currently followed series stores an exact 0 (taking the
other series' value at that position), and such switches can happen any
number of times during one walk, not at most once. -/
theorem c2_amended (n : Nat) (df : DF) (isave mm : Nat) (hmm : mm < n) :
    (assignWalk df isave n).SX mm =
      (if isaveWhen df.SX1 df.SX2 isave n mm = 1 then
        (if F.beq (df.SX1 mm) (F.fin 0) then df.SX2 mm else df.SX1 mm)
      else if isaveWhen df.SX1 df.SX2 isave n mm = 2 then
        (if F.beq (df.SX2 mm) (F.fin 0) then df.SX1 mm else df.SX2 mm)
      else df.SX mm) := by
  induction n generalizing df isave with
  | zero => omega
  | succ k ih =>
    by_cases hk : k = mm
    · subst hk
      unfold assignWalk isaveWhen
      by_cases h1 : isave = 1
      · by_cases hz : F.beq (df.SX1 k) (F.fin 0) = true <;>
          simp [h1, hz, assignWalk_SX_ge _ k _ k le_rfl, upd_same]
      · by_cases h2 : isave = 2
        · by_cases hz : F.beq (df.SX2 k) (F.fin 0) = true <;>
            simp [h1, h2, hz, assignWalk_SX_ge _ k _ k le_rfl, upd_same]
        · simp [h1, h2, assignWalk_SX_ge _ k _ k le_rfl]
    · have hmk : mm < k := by omega
      have hne : mm ≠ k := by omega
      unfold assignWalk isaveWhen
      by_cases h1 : isave = 1
      · by_cases hz : F.beq (df.SX1 k) (F.fin 0) = true <;>
          simp [h1, hz, hk, ih _ _ hmk, stepIsave, upd_ne _ _ _ hne]
      · by_cases h2 : isave = 2
        · by_cases hz : F.beq (df.SX2 k) (F.fin 0) = true <;>
            simp [h1, h2, hz, hk, ih _ _ hmk, stepIsave, upd_ne _ _ _ hne]
        · simp [h1, h2, hk, ih _ _ hmk, stepIsave]

/-- Witness for the amended C2 at the concrete two-entry buffer: the walk
switches at position 1 and back at position 0, so position 0 receives its
stored X1 value 5. -/
theorem c2_amended_witness : (assignWalk c2df 1 2).SX 0 = F.fin 5 := by
  have h := c2_amended 2 c2df 1 0 (by omega)
  rw [h]
  decide

/-- C5: the zero-denominator policies of the CAFEC coefficient estimator,
stated against the calibration-period monthly sums it actually uses:
alpha is ET over PET when the PET sum is nonzero, else 1 when the ET sum
is also zero and 0 otherwise; the same policy holds for beta over R and
PR and for gamma over RO and SP; delta is L over PL when the PL sum is
nonzero and 0 whenever the PL sum is zero, with no 1 fallback. -/
theorem c5_zero_guard_policies (P ET PET R PR L PL RO SP : List (Fin 12 → ℚ))
    (dataStart calStart calEnd : Nat) (m : Fin 12)
    (petS etS prS rS spS roS plS lS : ℚ)
    (hpet : petS = monthSum (calibSelection P.length PET dataStart calStart calEnd) m)
    (het : etS = monthSum (calibSelection P.length ET dataStart calStart calEnd) m)
    (hpr : prS = monthSum (calibSelection P.length PR dataStart calStart calEnd) m)
    (hr : rS = monthSum (calibSelection P.length R dataStart calStart calEnd) m)
    (hsp : spS = monthSum (calibSelection P.length SP dataStart calStart calEnd) m)
    (hro : roS = monthSum (calibSelection P.length RO dataStart calStart calEnd) m)
    (hpl : plS = monthSum (calibSelection P.length PL dataStart calStart calEnd) m)
    (hl : lS = monthSum (calibSelection P.length L dataStart calStart calEnd) m) :
    ((petS ≠ 0 →
        (_cafec_coefficients P ET PET R PR L PL RO SP dataStart calStart calEnd).alpha m =
          etS / petS) ∧
     (petS = 0 → etS = 0 →
        (_cafec_coefficients P ET PET R PR L PL RO SP dataStart calStart calEnd).alpha m = 1) ∧
     (petS = 0 → etS ≠ 0 →
        (_cafec_coefficients P ET PET R PR L PL RO SP dataStart calStart calEnd).alpha m = 0)) ∧
    ((prS ≠ 0 →
        (_cafec_coefficients P ET PET R PR L PL RO SP dataStart calStart calEnd).beta m =
          rS / prS) ∧
     (prS = 0 → rS = 0 →
        (_cafec_coefficients P ET PET R PR L PL RO SP dataStart calStart calEnd).beta m = 1) ∧
     (prS = 0 → rS ≠ 0 →
        (_cafec_coefficients P ET PET R PR L PL RO SP dataStart calStart calEnd).beta m = 0)) ∧
    ((spS ≠ 0 →
        (_cafec_coefficients P ET PET R PR L PL RO SP dataStart calStart calEnd).gamma m =
          roS / spS) ∧
     (spS = 0 → roS = 0 →
        (_cafec_coefficients P ET PET R PR L PL RO SP dataStart calStart calEnd).gamma m = 1) ∧
     (spS = 0 → roS ≠ 0 →
        (_cafec_coefficients P ET PET R PR L PL RO SP dataStart calStart calEnd).gamma m = 0)) ∧
    ((plS ≠ 0 →
        (_cafec_coefficients P ET PET R PR L PL RO SP dataStart calStart calEnd).delta m =
          lS / plS) ∧
     (plS = 0 →
        (_cafec_coefficients P ET PET R PR L PL RO SP dataStart calStart calEnd).delta m = 0)) := by
  subst hpet het hpr hr hsp hro hpl hl
  unfold _cafec_coefficients cafecFromRows
  refine ⟨⟨fun h => ?_, fun h h2 => ?_, fun h h2 => ?_⟩,
    ⟨fun h => ?_, fun h h2 => ?_, fun h h2 => ?_⟩,
    ⟨fun h => ?_, fun h h2 => ?_, fun h h2 => ?_⟩,
    ⟨fun h => ?_, fun h => ?_⟩⟩ <;> simp [h, *]

/-- Witness for C5 on a one-year calibration grid of zeros: every sum is
zero, so alpha takes its 1 fallback while delta takes its 0 fallback. -/
theorem c5_zero_guard_policies_witness :
    (_cafec_coefficients [zeros12] [zeros12] [zeros12] [zeros12] [zeros12]
      [zeros12] [zeros12] [zeros12] [zeros12] 0 0 0).alpha 0 = 1 ∧
    (_cafec_coefficients [zeros12] [zeros12] [zeros12] [zeros12] [zeros12]
      [zeros12] [zeros12] [zeros12] [zeros12] 0 0 0).delta 0 = 0 := by
  have h := c5_zero_guard_policies [zeros12] [zeros12] [zeros12] [zeros12]
    [zeros12] [zeros12] [zeros12] [zeros12] [zeros12] 0 0 0 0
    0 0 0 0 0 0 0 0
    (by decide) (by decide) (by decide) (by decide) (by decide) (by decide)
    (by decide) (by decide)
  exact ⟨h.1.2.1 rfl rfl, h.2.2.2.2 rfl⟩

/-- When the calibration window is the full data range, the windowed slice
selects every row. -/
theorem calibSlice_full (rows : List (Fin 12 → ℚ)) (dataStart n : Nat)
    (hn : 0 < n) (hlen : rows.length = n) :
    calibSlice rows dataStart dataStart (dataStart + n - 1) = rows := by
  unfold calibSlice
  rw [Nat.sub_self, List.drop_zero]
  have h : dataStart + n - 1 + 1 - dataStart = n := by omega
  rw [h, ← hlen, List.take_length]

/-- C7: with a calibration window equal to the full data range, the CAFEC
coefficients produced from the windowed-slice code path coincide, entry
for entry across alpha, beta, gamma, delta and the T ratio, with those
produced by the use-full-series fast path. -/
theorem c7_calibration_paths_agree (P ET PET R PR L PL RO SP : List (Fin 12 → ℚ))
    (dataStart n : Nat) (hn : 0 < n)
    (hP : P.length = n) (hET : ET.length = n) (hPET : PET.length = n)
    (hR : R.length = n) (hPR : PR.length = n) (hL : L.length = n)
    (hPL : PL.length = n) (hRO : RO.length = n) (hSP : SP.length = n) :
    cafecFromRows (calibSlice P dataStart dataStart (dataStart + n - 1))
      (calibSlice ET dataStart dataStart (dataStart + n - 1))
      (calibSlice PET dataStart dataStart (dataStart + n - 1))
      (calibSlice R dataStart dataStart (dataStart + n - 1))
      (calibSlice PR dataStart dataStart (dataStart + n - 1))
      (calibSlice L dataStart dataStart (dataStart + n - 1))
      (calibSlice PL dataStart dataStart (dataStart + n - 1))
      (calibSlice RO dataStart dataStart (dataStart + n - 1))
      (calibSlice SP dataStart dataStart (dataStart + n - 1)) =
    cafecFromRows P ET PET R PR L PL RO SP := by
  rw [calibSlice_full P dataStart n hn hP,
    calibSlice_full ET dataStart n hn hET,
    calibSlice_full PET dataStart n hn hPET,
    calibSlice_full R dataStart n hn hR,
    calibSlice_full PR dataStart n hn hPR,
    calibSlice_full L dataStart n hn hL,
    calibSlice_full PL dataStart n hn hPL,
    calibSlice_full RO dataStart n hn hRO,
    calibSlice_full SP dataStart n hn hSP]

/-- Witness for C7 on a one-year grid. -/
theorem c7_calibration_paths_agree_witness :
    cafecFromRows (calibSlice [ones12] 0 0 0) (calibSlice [ones12] 0 0 0)
      (calibSlice [ones12] 0 0 0) (calibSlice [ones12] 0 0 0)
      (calibSlice [ones12] 0 0 0) (calibSlice [ones12] 0 0 0)
      (calibSlice [ones12] 0 0 0) (calibSlice [ones12] 0 0 0)
      (calibSlice [ones12] 0 0 0) =
    cafecFromRows [ones12] [ones12] [ones12] [ones12] [ones12] [ones12]
      [ones12] [ones12] [ones12] := by
  exact c7_calibration_paths_agree [ones12] [ones12] [ones12] [ones12] [ones12]
    [ones12] [ones12] [ones12] [ones12] 0 1 (by decide) rfl rfl rfl rfl rfl rfl
    rfl rfl rfl

/-- One month of the water balance keeps the carried soil moisture within
its physical bounds: the surface layer within 0 and the top-layer capacity
1, the underlying layer within 0 and AWC, for every PE value. -/
theorem wb_month_soil_bounds (AWC SS SU precip PE : ℚ) (hA : 0 ≤ AWC)
    (hp : 0 ≤ precip) (h1 : 0 ≤ SS) (h2 : SS ≤ 1) (h3 : 0 ≤ SU) (h4 : SU ≤ AWC) :
    0 ≤ (_water_balance_month AWC SS SU precip PE).SSS ∧
    (_water_balance_month AWC SS SU precip PE).SSS ≤ 1 ∧
    0 ≤ (_water_balance_month AWC SS SU precip PE).SSU ∧
    (_water_balance_month AWC SS SU precip PE).SSU ≤ AWC := by
  unfold _water_balance_month
  by_cases hpe : precip ≥ PE
  · by_cases hex : precip - PE > 1 - SS
    · by_cases hcap : precip - PE - (1 - SS) < AWC - SU
      · rw [if_pos hpe, if_pos hex, if_pos hcap]
        refine ⟨by linarith, by linarith, by linarith, by linarith⟩
      · rw [if_pos hpe, if_pos hex, if_neg hcap]
        refine ⟨by linarith, by linarith, by linarith, by linarith⟩
    · rw [if_pos hpe, if_neg hex]
      refine ⟨by linarith, by linarith, by linarith, by linarith⟩
  · by_cases hsl : SS ≥ PE - precip
    · rw [if_neg hpe, if_pos hsl]
      refine ⟨by linarith, by linarith, by linarith, by linarith⟩
    · rw [if_neg hpe, if_neg hsl]
      have hd : 0 ≤ (PE - precip - SS) * SU / (AWC + 1) :=
        div_nonneg (mul_nonneg (by linarith) h3) (by linarith)
      have hm0 : 0 ≤ min ((PE - precip - SS) * SU / (AWC + 1)) SU := le_min hd h3
      have hm1 : min ((PE - precip - SS) * SU / (AWC + 1)) SU ≤ SU :=
        min_le_right _ _
      refine ⟨by linarith, by linarith, by simp <;> linarith, by simp <;> linarith⟩

/-- One month of the water balance keeps the actual evapotranspiration
between 0 and PE: it equals PE exactly when precipitation covers PE, and
equals precipitation plus the total soil loss otherwise. -/
theorem wb_month_et (AWC SS SU precip PE : ℚ) (hA : 0 ≤ AWC)
    (hp : 0 ≤ precip) (hpe0 : 0 ≤ PE) (h1 : 0 ≤ SS) (h2 : SS ≤ 1)
    (h3 : 0 ≤ SU) (h4 : SU ≤ AWC) :
    0 ≤ (_water_balance_month AWC SS SU precip PE).ET ∧
    (_water_balance_month AWC SS SU precip PE).ET ≤
      (_water_balance_month AWC SS SU precip PE).PE ∧
    ((_water_balance_month AWC SS SU precip PE).PE ≤
        (_water_balance_month AWC SS SU precip PE).P →
      (_water_balance_month AWC SS SU precip PE).ET =
        (_water_balance_month AWC SS SU precip PE).PE) ∧
    ((_water_balance_month AWC SS SU precip PE).P <
        (_water_balance_month AWC SS SU precip PE).PE →
      (_water_balance_month AWC SS SU precip PE).ET =
        (_water_balance_month AWC SS SU precip PE).P +
          (_water_balance_month AWC SS SU precip PE).TL) := by
  unfold _water_balance_month
  by_cases hpe : precip ≥ PE
  · by_cases hex : precip - PE > 1 - SS
    · by_cases hcap : precip - PE - (1 - SS) < AWC - SU
      · rw [if_pos hpe, if_pos hex, if_pos hcap]
        exact ⟨hpe0, le_rfl, fun _ => rfl, fun hlt => absurd hlt (not_lt.mpr hpe)⟩
      · rw [if_pos hpe, if_pos hex, if_neg hcap]
        exact ⟨hpe0, le_rfl, fun _ => rfl, fun hlt => absurd hlt (not_lt.mpr hpe)⟩
    · rw [if_pos hpe, if_neg hex]
      exact ⟨hpe0, le_rfl, fun _ => rfl, fun hlt => absurd hlt (not_lt.mpr hpe)⟩
  · by_cases hsl : SS ≥ PE - precip
    · rw [if_neg hpe, if_pos hsl]
      refine ⟨by simp <;> linarith, by simp <;> linarith, fun hc => absurd hc hpe,
        fun _ => by simp <;> ring⟩
    · rw [if_neg hpe, if_neg hsl]
      have hd : 0 ≤ (PE - precip - SS) * SU / (AWC + 1) :=
        div_nonneg (mul_nonneg (by linarith) h3) (by linarith)
      have hm0 : 0 ≤ min ((PE - precip - SS) * SU / (AWC + 1)) SU := le_min hd h3
      have hml : min ((PE - precip - SS) * SU / (AWC + 1)) SU ≤
          (PE - precip - SS) * SU / (AWC + 1) := min_le_left _ _
      have hub : (PE - precip - SS) * SU / (AWC + 1) ≤ PE - precip - SS := by
        rw [div_le_iff₀ (by linarith : (0:ℚ) < AWC + 1)]
        nlinarith
      refine ⟨by simp <;> linarith, by simp <;> linarith, fun hc => absurd hc hpe,
        fun _ => by simp <;> ring⟩

/-- The soil-moisture invariant holds along the whole recursion, from any
in-bounds starting state. -/
theorem wb_run_soil (AWC : ℚ) (hA : 0 ≤ AWC) :
    ∀ (months : List (ℚ × ℚ)) (SS SU : ℚ),
      (∀ p ∈ months, 0 ≤ p.1) → 0 ≤ SS → SS ≤ 1 → 0 ≤ SU → SU ≤ AWC →
      ∀ r ∈ _water_balance AWC months SS SU,
        0 ≤ r.SSS ∧ r.SSS ≤ 1 ∧ 0 ≤ r.SSU ∧ r.SSU ≤ AWC := by
  intro months
  induction months with
  | nil => intro SS SU _ _ _ _ _ r hr; simp [_water_balance] at hr
  | cons head rest ih =>
    obtain ⟨precip, PE⟩ := head
    intro SS SU hples h1 h2 h3 h4 r hr
    have hb := wb_month_soil_bounds AWC SS SU precip PE hA
      (hples _ (List.mem_cons_self _ _)) h1 h2 h3 h4
    rw [_water_balance] at hr
    rcases List.mem_cons.mp hr with h | h
    · rw [h]; exact hb
    · exact ih _ _ (fun p hp => hples p (List.mem_cons_of_mem _ hp))
        hb.1 hb.2.1 hb.2.2.1 hb.2.2.2 r h

/-- The evapotranspiration bounds hold along the whole recursion, from any
in-bounds starting state. -/
theorem wb_run_et (AWC : ℚ) (hA : 0 ≤ AWC) :
    ∀ (months : List (ℚ × ℚ)) (SS SU : ℚ),
      (∀ p ∈ months, 0 ≤ p.1) → (∀ p ∈ months, 0 ≤ p.2) →
      0 ≤ SS → SS ≤ 1 → 0 ≤ SU → SU ≤ AWC →
      ∀ r ∈ _water_balance AWC months SS SU,
        0 ≤ r.ET ∧ r.ET ≤ r.PE ∧ (r.PE ≤ r.P → r.ET = r.PE) ∧
          (r.P < r.PE → r.ET = r.P + r.TL) := by
  intro months
  induction months with
  | nil => intro SS SU _ _ _ _ _ _ r hr; simp [_water_balance] at hr
  | cons head rest ih =>
    obtain ⟨precip, PE⟩ := head
    intro SS SU hples hpes h1 h2 h3 h4 r hr
    have hb := wb_month_soil_bounds AWC SS SU precip PE hA
      (hples _ (List.mem_cons_self _ _)) h1 h2 h3 h4
    have he := wb_month_et AWC SS SU precip PE hA
      (hples _ (List.mem_cons_self _ _)) (hpes _ (List.mem_cons_self _ _))
      h1 h2 h3 h4
    rw [_water_balance] at hr
    rcases List.mem_cons.mp hr with h | h
    · rw [h]; exact he
    · exact ih _ _ (fun p hp => hples p (List.mem_cons_of_mem _ hp))
        (fun p hp => hpes p (List.mem_cons_of_mem _ hp))
        hb.1 hb.2.1 hb.2.2.1 hb.2.2.2 r h

/-- C6: for every simulated month of the water balance, given nonnegative
precipitation inputs and a nonnegative AWC, the carried soil-moisture
state stays within 0 and the top-layer capacity 1 for the surface layer
and within 0 and AWC for the underlying layer, for all input series and
all PE values. -/
theorem c6_soil_moisture_bounds (AWC : ℚ) (months : List (ℚ × ℚ))
    (hA : 0 ≤ AWC) (hp : ∀ p ∈ months, 0 ≤ p.1) :
    ∀ r ∈ waterBalanceRun AWC months,
      0 ≤ r.SSS ∧ r.SSS ≤ 1 ∧ 0 ≤ r.SSU ∧ r.SSU ≤ AWC :=
  wb_run_soil AWC hA months 1 AWC hp (by norm_num) le_rfl hA le_rfl

/-- Witness for C6 on a concrete one-month run with AWC 5, precipitation
2 and PE 3. -/
theorem c6_soil_moisture_bounds_witness :
    0 ≤ (waterBalanceRun 5 [((2:ℚ), (3:ℚ))]).headI.SSS ∧
    (waterBalanceRun 5 [((2:ℚ), (3:ℚ))]).headI.SSS ≤ 1 ∧
    0 ≤ (waterBalanceRun 5 [((2:ℚ), (3:ℚ))]).headI.SSU ∧
    (waterBalanceRun 5 [((2:ℚ), (3:ℚ))]).headI.SSU ≤ 5 := by
  have h := c6_soil_moisture_bounds 5 [((2:ℚ), (3:ℚ))] (by norm_num) (by decide)
  exact h _ (by decide)

/-- C10: for every simulated month of the water balance with nonnegative
precipitation and PE inputs and nonnegative AWC, the actual
evapotranspiration satisfies 0 ≤ ET ≤ PE; it equals PE exactly when the
month's precipitation is at least its PE, and equals precipitation plus
the total soil-moisture loss when precipitation falls short of PE. -/
theorem c10_et_bounds (AWC : ℚ) (months : List (ℚ × ℚ)) (hA : 0 ≤ AWC)
    (hp : ∀ p ∈ months, 0 ≤ p.1) (hpe : ∀ p ∈ months, 0 ≤ p.2) :
    ∀ r ∈ waterBalanceRun AWC months,
      0 ≤ r.ET ∧ r.ET ≤ r.PE ∧ (r.PE ≤ r.P → r.ET = r.PE) ∧
        (r.P < r.PE → r.ET = r.P + r.TL) :=
  wb_run_et AWC hA months 1 AWC hp hpe (by norm_num) le_rfl hA le_rfl

/-- Witness for C10 on the same concrete one-month run: precipitation 2
falls short of PE 3, and the month's ET is 3 with total loss 1. -/
theorem c10_et_bounds_witness :
    0 ≤ (waterBalanceRun 5 [((2:ℚ), (3:ℚ))]).headI.ET ∧
    (waterBalanceRun 5 [((2:ℚ), (3:ℚ))]).headI.ET ≤
      (waterBalanceRun 5 [((2:ℚ), (3:ℚ))]).headI.PE := by
  have h := c10_et_bounds 5 [((2:ℚ), (3:ℚ))] (by norm_num) (by decide) (by decide)
  have h2 := h _ (by decide :
    (waterBalanceRun 5 [((2:ℚ), (3:ℚ))]).headI ∈ waterBalanceRun 5 [((2:ℚ), (3:ℚ))])
  exact ⟨h2.1, h2.2.1⟩
